import Mathlib

/-!
Verification of the AI-provider gateway of the business-proposal system:
the Node MCP server (`node-mcp-server/src/server.ts`: `callAI` and the two
Express route handlers) and the Laravel caller client
(`laravel-api-mcp-client/app/Services/McpClient.php`).

The embedding is shallow: JSON values are an inductive type, the network is
an explicit oracle `HttpRequest → Except String Json` (a `.error` models an
axios rejection: transport failure or non-2xx response; an `.ok` carries the
parsed 2xx body), and `callAI` returns both its result and the list of
outbound requests it issued, so "no network call is attempted" is the
statement that this list is empty.
-/

/-- A JSON value, as parsed from a request or response body.  Numbers are
modelled as integers; no claim depends on fractional numeric payloads. -/
inductive Json where
  | null
  | bool (b : Bool)
  | num  (n : Int)
  | str  (s : String)
  | arr  (elems : List Json)
  | obj  (members : List (String × Json))

/-- Field lookup in an object member list (first match wins, as in JS). -/
def lookupMember : List (String × Json) → String → Option Json
  | [], _ => none
  | (k, v) :: rest, key => if k = key then some v else lookupMember rest key

/-- JS property access `j[key]`: `none` models `undefined` (non-object
receiver or absent key). -/
def Json.get? : Json → String → Option Json
  | .obj members, key => lookupMember members key
  | _, _ => none

/-- JS index access `j[i]` on an array; `none` models `undefined`. -/
def Json.idx? : Json → Nat → Option Json
  | .arr elems, i => elems.get? i
  | _, _ => none

/-- JS optional chaining `x?.`: both `null` and `undefined` short-circuit to
`undefined`, so a JSON `null` collapses to `none` before the next access. -/
def jsOpt : Option Json → Option Json
  | some .null => none
  | o => o

/-- JS truthiness of a JSON value (used by `||`). -/
def Json.truthy : Json → Bool
  | .null => false
  | .bool b => b
  | .num n => n != 0
  | .str s => s != ""
  | .arr _ => true
  | .obj _ => true

/-- JSON string escaping (quotes, backslashes and the common control
characters; sufficient for the prompts at issue). -/
def escapeJsonString (s : String) : String :=
  s.data.foldr
    (fun c acc =>
      (if c = '"' then "\\\""
       else if c = '\\' then "\\\\"
       else if c = '\n' then "\\n"
       else if c = '\r' then "\\r"
       else if c = '\t' then "\\t"
       else String.singleton c) ++ acc) ""

mutual
/-- `JSON.stringify` as used in the generate-html system prompt. -/
def jsonStringify : Json → String
  | .null => "null"
  | .bool b => if b then "true" else "false"
  | .num n => toString n
  | .str s => "\"" ++ escapeJsonString s ++ "\""
  | .arr elems => "[" ++ stringifyElems elems ++ "]"
  | .obj members => "\x7b" ++ stringifyMembers members ++ "\x7d"

def stringifyElems : List Json → String
  | [] => ""
  | [j] => jsonStringify j
  | j :: rest => jsonStringify j ++ "," ++ stringifyElems rest

def stringifyMembers : List (String × Json) → String
  | [] => ""
  | [(k, v)] => "\"" ++ escapeJsonString k ++ "\":" ++ jsonStringify v
  | (k, v) :: rest =>
      "\"" ++ escapeJsonString k ++ "\":" ++ jsonStringify v ++ "," ++ stringifyMembers rest
end

/-- The process environment visible to `server.ts` (`.env` via dotenv). -/
structure Env where
  PORT : Option String
  AI_PROVIDER : Option String
  GROQ_API_KEY : Option String
  CHATGPT_API_KEY : Option String
  DEEPSEEK_API_KEY : Option String
  GEMINI_API_KEY : Option String

/-- JS template-literal interpolation of a possibly-unset environment
variable: an unset variable renders as the literal string "undefined". -/
def envInterp : Option String → String
  | some s => s
  | none => "undefined"

/-- JS `x || d` on a string-typed environment variable: unset and empty
both fall back to the default. -/
def jsOrDefault : Option String → String → String
  | some s, d => if s = "" then d else s
  | none, d => d

/-- One role-tagged message of a chat-completions request body. -/
structure ChatMessage where
  role : String
  content : String
  deriving DecidableEq

/-- The chat-completions request body shared by the groq / openai /
deepseek branches of `callAI` (server.ts lines 33-40, 61-68, 89-96). -/
structure ChatBody where
  model : String
  messages : List ChatMessage
  temperature : Rat
  deriving DecidableEq

/-- An outbound request body: either a chat-completions body or the Gemini
`contents: [ \x7b parts: [ \x7b text \x7d ] \x7d ]` shape, modelled as the
list of contents, each the list of its parts' text fields. -/
inductive ReqBody where
  | chat (b : ChatBody)
  | gemini (contents : List (List String))
  deriving DecidableEq

/-- An outbound HTTP POST as issued by axios: URL, headers, JSON body. -/
structure HttpRequest where
  url : String
  headers : List (String × String)
  body : ReqBody
  deriving DecidableEq

/-- The message list built by the chat-style branches (server.ts lines
35-38): a system-role message only when `systemPrompt` is truthy (a
non-empty string), then the user-role message. -/
def chatMessages (systemPrompt userPrompt : String) : List ChatMessage :=
  (if systemPrompt ≠ "" then [⟨"system", systemPrompt⟩] else []) ++
    [⟨"user", userPrompt⟩]

/-- The request of the groq branch (server.ts lines 31-47). -/
def groqRequest (env : Env) (systemPrompt userPrompt : String) : HttpRequest :=
  { url := "https://api.groq.com/openai/v1/chat/completions"
    headers := [("Authorization", "Bearer " ++ envInterp env.GROQ_API_KEY),
                ("Content-Type", "application/json")]
    body := .chat { model := "meta-llama/llama-4-scout-17b-16e-instruct"
                    messages := chatMessages systemPrompt userPrompt
                    temperature := (7 : Rat) / 10 } }

/-- The request of the openai branch (server.ts lines 59-75). -/
def openaiRequest (env : Env) (systemPrompt userPrompt : String) : HttpRequest :=
  { url := "https://api.openai.com/v1/chat/completions"
    headers := [("Authorization", "Bearer " ++ envInterp env.CHATGPT_API_KEY),
                ("Content-Type", "application/json")]
    body := .chat { model := "gpt-4"
                    messages := chatMessages systemPrompt userPrompt
                    temperature := (7 : Rat) / 10 } }

/-- The request of the deepseek branch (server.ts lines 87-103). -/
def deepseekRequest (env : Env) (systemPrompt userPrompt : String) : HttpRequest :=
  { url := "https://api.deepseek.com/v1/chat/completions"
    headers := [("Authorization", "Bearer " ++ envInterp env.DEEPSEEK_API_KEY),
                ("Content-Type", "application/json")]
    body := .chat { model := "deepseek-chat"
                    messages := chatMessages systemPrompt userPrompt
                    temperature := (7 : Rat) / 10 } }

/-- The single flat prompt of the gemini branch (server.ts lines 114-116):
system and user prompts joined by a blank line when the system prompt is
truthy, else the user prompt alone. -/
def geminiFullPrompt (systemPrompt userPrompt : String) : String :=
  if systemPrompt ≠ "" then systemPrompt ++ "\n\n" ++ userPrompt else userPrompt

/-- The request of the gemini branch (server.ts lines 118-126): the API key
travels in the URL query string, not in a header, and the body is one
content block with one part. -/
def geminiRequest (env : Env) (systemPrompt userPrompt : String) : HttpRequest :=
  { url := "https://generativelanguage.googleapis.com/v1beta/models/gemini-pro:generateContent?key="
             ++ envInterp env.GEMINI_API_KEY
    headers := [("Content-Type", "application/json")]
    body := .gemini [[geminiFullPrompt systemPrompt userPrompt]] }

/-- `res.data.choices?.[0]?.message?.content` (server.ts lines 49, 77,
105): each `?.` collapses `null`/`undefined` to `undefined` before the next
access; the result is the content value, or `none` for `undefined`. -/
def extractChoiceContent (data : Json) : Option Json :=
  (jsOpt ((jsOpt ((jsOpt (data.get? "choices")).bind
    (fun c => c.idx? 0))).bind
    (fun c => c.get? "message"))).bind
    (fun m => m.get? "content")

/-- `res.data.candidates?.[0]?.content?.parts?.[0]?.text` (server.ts line
128), before the `|| ''` fallback. -/
def extractGeminiText (data : Json) : Option Json :=
  (jsOpt ((jsOpt ((jsOpt ((jsOpt ((jsOpt (data.get? "candidates")).bind
    (fun c => c.idx? 0))).bind
    (fun c => c.get? "content"))).bind
    (fun c => c.get? "parts"))).bind
    (fun p => p.idx? 0))).bind
    (fun p => p.get? "text")

/-- The gemini branch's returned value: the extracted text, with falsy and
missing values replaced by the empty string by `|| ''` (server.ts 128). -/
def geminiResultValue (data : Json) : Json :=
  match extractGeminiText data with
  | some v => if v.truthy then v else .str ""
  | none => .str ""

/-- Evaluating the chat-style return expression inside the try block: a
JSON `null` body makes the initial `.choices` access throw a TypeError,
which the catch block rethrows; otherwise the optional chain yields the
content, `none` standing for `undefined`. -/
def chatResponseResult : Json → Except String (Option Json)
  | .null => .error "TypeError"
  | data => .ok (extractChoiceContent data)

/-- Evaluating the gemini return expression inside the try block; the
`|| ''` fallback means a resolved gemini call always yields a value. -/
def geminiResponseResult : Json → Except String (Option Json)
  | .null => .error "TypeError"
  | data => .ok (some (geminiResultValue data))

/-- The network oracle: an axios POST either rejects (`.error`, covering
transport failures and non-2xx responses, carrying the error payload) or
resolves with the parsed response body. -/
def Net : Type := HttpRequest → Except String Json

/-- What one `callAI` invocation did: its result (`.error` models a thrown
error) and the outbound requests it issued, in order. -/
structure CallOutcome where
  result : Except String (Option Json)
  requests : List HttpRequest

/-- `callAI` (server.ts lines 23-136): dispatch on the provider string; each
known branch issues exactly one request and rethrows any error; an unknown
provider throws "Unsupported provider" without touching the network. -/
def callAI (net : Net) (env : Env)
    (provider systemPrompt userPrompt : String) : CallOutcome :=
  if provider = "groq" then
    let req := groqRequest env systemPrompt userPrompt
    match net req with
    | .error e => ⟨.error e, [req]⟩
    | .ok data => ⟨chatResponseResult data, [req]⟩
  else if provider = "openai" then
    let req := openaiRequest env systemPrompt userPrompt
    match net req with
    | .error e => ⟨.error e, [req]⟩
    | .ok data => ⟨chatResponseResult data, [req]⟩
  else if provider = "deepseek" then
    let req := deepseekRequest env systemPrompt userPrompt
    match net req with
    | .error e => ⟨.error e, [req]⟩
    | .ok data => ⟨chatResponseResult data, [req]⟩
  else if provider = "gemini" then
    let req := geminiRequest env systemPrompt userPrompt
    match net req with
    | .error e => ⟨.error e, [req]⟩
    | .ok data => ⟨geminiResponseResult data, [req]⟩
  else ⟨.error "Unsupported provider", []⟩

/-- The provider identifiers `callAI` recognises. -/
def knownProviders : List String := ["groq", "openai", "deepseek", "gemini"]

/-- The three providers sharing the chat-completions request shape. -/
def chatProviders : List String := ["groq", "openai", "deepseek"]

/-- What startup computes (server.ts lines 11-12, 171-173): the listen port
and the process-wide default provider.  Startup reads these two variables,
registers the routes and listens; it performs no credential validation, so
it is a total function of the environment with no error outcome. -/
structure ServerConfig where
  port : String
  defaultProvider : String
  deriving DecidableEq

/-- Server startup: `PORT || 3001` and `AI_PROVIDER || 'groq'`. -/
def serverStartup (env : Env) : ServerConfig :=
  { port := jsOrDefault env.PORT "3001"
    defaultProvider := jsOrDefault env.AI_PROVIDER "groq" }

/-- An HTTP response sent by a route handler: status and JSON body. -/
structure HttpResponse where
  status : Nat
  body : Json

/-- What one request to a route produced: the response sent and the
outbound provider requests issued while handling it. -/
structure HandlerOutcome where
  response : HttpResponse
  requests : List HttpRequest

/-- The fixed enhancement system prompt (server.ts lines 144-145). -/
def enhanceSystemPrompt : String :=
  "Enhance this business proposal text to be more professional and compelling. Keep the original meaning but improve clarity and impact."

/-- The generate-html system prompt (server.ts line 161): fixed instruction
with the proposal JSON serialized into it. -/
def generateSystemPrompt (proposal : Json) : String :=
  "Generate a professional HTML template for a business proposal. Use this JSON data: "
    ++ jsonStringify proposal

/-- `res.json(\x7b success: true, <field>: result \x7d)`: JSON
serialization drops a field whose value is `undefined` (`none`), while a
JSON `null` value is kept. -/
def successBody (field : String) (result : Option Json) : Json :=
  .obj ([("success", .bool true)] ++
    (match result with
     | some v => [(field, v)]
     | none => []))

/-- The 500 body sent by a handler's catch block. -/
def failureBody (message : String) : Json :=
  .obj [("success", .bool false), ("error", .str message)]

/-- Body of `POST /mcp/text-enhancement`: `text`, optional `provider`. -/
structure EnhanceRequest where
  text : String
  provider : Option String

/-- Body of `POST /mcp/generate-html`: `proposal`, optional `provider`. -/
structure GenerateRequest where
  proposal : Json
  provider : Option String

/-- The `POST /mcp/text-enhancement` handler (server.ts lines 139-153):
destructure the body with the startup default for a missing provider, call
`callAI` with the fixed enhancement prompt and the input text, answer 200
with the result on resolution and 500 with a fixed error string on a
thrown error. -/
def handleTextEnhancement (net : Net) (env : Env)
    (req : EnhanceRequest) : HandlerOutcome :=
  let provider := req.provider.getD (serverStartup env).defaultProvider
  let out := callAI net env provider enhanceSystemPrompt req.text
  match out.result with
  | .ok v => ⟨⟨200, successBody "enhancedText" v⟩, out.requests⟩
  | .error _ => ⟨⟨500, failureBody "Failed to enhance text"⟩, out.requests⟩

/-- The `POST /mcp/generate-html` handler (server.ts lines 156-169): the
proposal is serialized into the system prompt and the user prompt is the
empty string. -/
def handleGenerateHtml (net : Net) (env : Env)
    (req : GenerateRequest) : HandlerOutcome :=
  let provider := req.provider.getD (serverStartup env).defaultProvider
  let out := callAI net env provider (generateSystemPrompt req.proposal) ""
  match out.result with
  | .ok v => ⟨⟨200, successBody "html" v⟩, out.requests⟩
  | .error _ => ⟨⟨500, failureBody "Failed to generate HTML"⟩, out.requests⟩

/-- Laravel's `$response->json($key)` (McpClient.php lines 27, 37): `null`
when the response body is missing or unparsable (`none`), when the key is
absent, or when the stored value is JSON null; otherwise the value. -/
def laravelResponseJson (respBody : Option Json) (key : String) : Json :=
  match respBody with
  | none => .null
  | some b =>
    match b.get? key with
    | some v => v
    | none => .null

/-- PHP `$a ?? $b`: the left operand unless it is null. -/
def phpCoalesce (v : Json) (fallback : Json) : Json :=
  match v with
  | .null => fallback
  | v => v

/-- `McpClient::enhanceText` (McpClient.php lines 18-28), from the point
the gateway's response body is in hand: `json('enhancedText') ?? $text`. -/
def McpClient.enhanceText (text : String) (respBody : Option Json) : Json :=
  phpCoalesce (laravelResponseJson respBody "enhancedText") (.str text)

/-- `McpClient::generateHtml` (McpClient.php lines 30-38):
`json('html') ?? ''`. -/
def McpClient.generateHtml (respBody : Option Json) : Json :=
  phpCoalesce (laravelResponseJson respBody "html") (.str "")



/-! Concrete fixtures used by witnesses and counterexamples. -/

/-- A network oracle that always rejects (transport failure). -/
def netDown : Net := fun _ => .error "ECONNREFUSED"

/-- A network oracle that always resolves with an empty JSON object: a 2xx
body from which no text can be extracted. -/
def netEmptyObj : Net := fun _ => .ok (.obj [])

/-- A chat-completions 2xx body whose first choice's message content is the
given text. -/
def chatEnvelope (t : String) : Json :=
  .obj [("choices", .arr [.obj [("message", .obj [("content", .str t)])]])]

/-- A gemini 2xx body whose first candidate's first part text is the given
text. -/
def geminiEnvelope (t : String) : Json :=
  .obj [("candidates", .arr [.obj [("content",
    .obj [("parts", .arr [.obj [("text", .str t)]])])]])]

/-- A network oracle resolving every request with `chatEnvelope "hi"`. -/
def netChatHi : Net := fun _ => .ok (chatEnvelope "hi")

/-- A network oracle resolving every request with `geminiEnvelope "hi"`. -/
def netGeminiHi : Net := fun _ => .ok (geminiEnvelope "hi")

/-- An environment with no variable set. -/
def envUnset : Env := ⟨none, none, none, none, none, none⟩

/-- An environment with every variable set. -/
def envFull : Env :=
  ⟨some "3001", some "groq", some "gk", some "ck", some "dk", some "mk"⟩

/-- C1: for every provider identifier outside the known set groq / openai /
deepseek / gemini, `callAI` fails with the "Unsupported provider" error and
issues no network request at all. -/
theorem c1_unknown_provider_rejected_without_network (net : Net) (env : Env)
    (provider systemPrompt userPrompt : String)
    (h : provider ∉ knownProviders) :
    (callAI net env provider systemPrompt userPrompt).result =
      .error "Unsupported provider" ∧
    (callAI net env provider systemPrompt userPrompt).requests = [] := by
  simp [knownProviders] at h
  obtain ⟨h1, h2, h3, h4⟩ := h
  simp [callAI, h1, h2, h3, h4]

/-- C1 witness: the unknown identifier "mistral" at a concrete network and
environment. -/
theorem c1_witness :
    ("mistral" : String) ∉ knownProviders ∧
    ((callAI netDown envFull "mistral" "s" "u").result =
        .error "Unsupported provider" ∧
      (callAI netDown envFull "mistral" "s" "u").requests = []) :=
  ⟨by decide, c1_unknown_provider_rejected_without_network netDown envFull
    "mistral" "s" "u" (by decide)⟩

/-- C2 counterexample: a groq call whose 2xx response body is the empty
object — a body from which the expected text cannot be extracted — does not
surface as a provider-call failure: the call resolves with `undefined`
(`.ok none`), refuting the claim that a malformed response body always
surfaces as a failure. -/
theorem c2_counterexample_malformed_body_not_failure :
    (callAI netEmptyObj envFull "groq" "sys" "user").result = .ok none :=
  rfl

/-- C2 (amended): any transport failure or non-2xx response — an axios
rejection — surfaces from every provider branch as a provider-call failure
propagated unchanged to the caller; no branch swallows it.  (A 2xx body
with no extractable content, by contrast, resolves without failing.) -/
theorem c2_amended_provider_errors_propagate (env : Env)
    (provider systemPrompt userPrompt e : String) (net : Net)
    (hp : provider ∈ knownProviders) (hnet : ∀ r, net r = .error e) :
    (callAI net env provider systemPrompt userPrompt).result = .error e := by
  simp [knownProviders] at hp
  rcases hp with h | h | h | h <;> subst h <;> simp [callAI, hnet]

/-- C2 witness: a groq call over a network that rejects every request. -/
theorem c2_witness :
    (("groq" : String) ∈ knownProviders ∧
      ∀ r, netDown r = .error "ECONNREFUSED") ∧
    (callAI netDown envFull "groq" "s" "u").result = .error "ECONNREFUSED" :=
  ⟨⟨by decide, fun _ => rfl⟩,
    c2_amended_provider_errors_propagate envFull "groq" "s" "u" "ECONNREFUSED"
      netDown (by decide) (fun _ => rfl)⟩

/-- C3: whenever the gateway response yields no `enhancedText` value — the
call failed (the 500 error body), the body is missing or unparsable, or the
field is absent or null — `McpClient::enhanceText` returns exactly the
original input text rather than raising. -/
theorem c3_enhanceText_returns_input_on_failure (text : String)
    (respBody : Option Json)
    (h : laravelResponseJson respBody "enhancedText" = .null) :
    McpClient.enhanceText text respBody = .str text := by
  simp [McpClient.enhanceText, h, phpCoalesce]

/-- C3 witness: the gateway's own 500 failure body, at a concrete input. -/
theorem c3_witness :
    laravelResponseJson (some (failureBody "Failed to enhance text"))
        "enhancedText" = .null ∧
    McpClient.enhanceText "We build apps"
        (some (failureBody "Failed to enhance text")) = .str "We build apps" :=
  ⟨rfl, c3_enhanceText_returns_input_on_failure "We build apps" _ rfl⟩

/-- C4: whenever the gateway response yields no `html` value — the call
failed or the field is absent or null — `McpClient::generateHtml` returns
the empty string rather than raising. -/
theorem c4_generateHtml_returns_empty_on_failure (respBody : Option Json)
    (h : laravelResponseJson respBody "html" = .null) :
    McpClient.generateHtml respBody = .str "" := by
  simp [McpClient.generateHtml, h, phpCoalesce]

/-- C4 witness: the gateway's own 500 failure body for generate-html. -/
theorem c4_witness :
    laravelResponseJson (some (failureBody "Failed to generate HTML"))
        "html" = .null ∧
    McpClient.generateHtml (some (failureBody "Failed to generate HTML")) =
      .str "" :=
  ⟨rfl, c4_generateHtml_returns_empty_on_failure _ rfl⟩

/-- C5 counterexample: with groq resolving a 2xx empty-object body the
provider call succeeds (resolves, with `undefined`), yet the endpoint's 200
response carries no `enhancedText` field at all — refuting "200 with
success true and enhancedText a string exactly when the provider call
succeeds". -/
theorem c5_counterexample_success_without_text_field :
    (callAI netEmptyObj envFull "groq" enhanceSystemPrompt "hello").result =
      .ok none ∧
    (handleTextEnhancement netEmptyObj envFull
        ⟨"hello", some "groq"⟩).response.status = 200 ∧
    ((handleTextEnhancement netEmptyObj envFull
        ⟨"hello", some "groq"⟩).response.body).get? "enhancedText" = none :=
  ⟨rfl, rfl, rfl⟩

/-- C5 (amended): the text-enhancement endpoint answers 200 with success
true exactly when the provider call resolves — with the resolved value
under `enhancedText`, the field being omitted when the value is `undefined`
— and 500 with success false and a fixed error string exactly when the call
throws; analogously for generate-html with `html`. -/
theorem c5_amended_handler_response_shape (net : Net) (env : Env)
    (ereq : EnhanceRequest) (greq : GenerateRequest) :
    ((∃ v, (callAI net env (ereq.provider.getD (serverStartup env).defaultProvider)
          enhanceSystemPrompt ereq.text).result = .ok v ∧
        (handleTextEnhancement net env ereq).response =
          ⟨200, successBody "enhancedText" v⟩) ∨
      (∃ e, (callAI net env (ereq.provider.getD (serverStartup env).defaultProvider)
          enhanceSystemPrompt ereq.text).result = .error e ∧
        (handleTextEnhancement net env ereq).response =
          ⟨500, failureBody "Failed to enhance text"⟩)) ∧
    ((∃ v, (callAI net env (greq.provider.getD (serverStartup env).defaultProvider)
          (generateSystemPrompt greq.proposal) "").result = .ok v ∧
        (handleGenerateHtml net env greq).response =
          ⟨200, successBody "html" v⟩) ∨
      (∃ e, (callAI net env (greq.provider.getD (serverStartup env).defaultProvider)
          (generateSystemPrompt greq.proposal) "").result = .error e ∧
        (handleGenerateHtml net env greq).response =
          ⟨500, failureBody "Failed to generate HTML"⟩)) := by
  constructor
  · cases h : (callAI net env (ereq.provider.getD (serverStartup env).defaultProvider)
        enhanceSystemPrompt ereq.text).result with
    | error e => exact Or.inr ⟨e, rfl, by simp [handleTextEnhancement, h]⟩
    | ok v => exact Or.inl ⟨v, rfl, by simp [handleTextEnhancement, h]⟩
  · cases h : (callAI net env (greq.provider.getD (serverStartup env).defaultProvider)
        (generateSystemPrompt greq.proposal) "").result with
    | error e => exact Or.inr ⟨e, rfl, by simp [handleGenerateHtml, h]⟩
    | ok v => exact Or.inl ⟨v, rfl, by simp [handleGenerateHtml, h]⟩

/-- C6: every chat-style branch (groq, openai, deepseek) issues exactly one
request, bearer-token authenticated, whose body holds a system-role message
with the system prompt iff that prompt is non-empty, followed by exactly
one user-role message with the user prompt, at sampling temperature 0.7;
and when the network resolves with a body whose first choice's message
content is the text t, the call returns t. -/
theorem c6_chat_request_shape_and_extraction (net : Net) (env : Env)
    (provider systemPrompt userPrompt : String)
    (hp : provider ∈ chatProviders) :
    (∃ url key mdl,
      (callAI net env provider systemPrompt userPrompt).requests =
        [⟨url,
          [("Authorization", "Bearer " ++ key),
           ("Content-Type", "application/json")],
          .chat ⟨mdl,
            (if systemPrompt ≠ "" then [⟨"system", systemPrompt⟩] else []) ++
              [⟨"user", userPrompt⟩],
            (7 : Rat) / 10⟩⟩]) ∧
    (∀ (t : String) (restChoices : List Json)
        (m1 m2 mData : List (String × Json)),
      (∀ r, net r = .ok (.obj (("choices",
          .arr (.obj (("message", .obj (("content", .str t) :: m2)) :: m1)
            :: restChoices)) :: mData))) →
      (callAI net env provider systemPrompt userPrompt).result =
        .ok (some (.str t))) := by
  simp [chatProviders] at hp
  rcases hp with h | h | h <;> subst h
  · constructor
    · refine ⟨"https://api.groq.com/openai/v1/chat/completions",
        envInterp env.GROQ_API_KEY,
        "meta-llama/llama-4-scout-17b-16e-instruct", ?_⟩
      cases h : net (groqRequest env systemPrompt userPrompt) <;>
        (simp only [callAI]; rw [h]; simp [groqRequest, chatMessages])
    · intro t restChoices m1 m2 mData hnet
      simp [callAI, hnet, chatResponseResult, extractChoiceContent, jsOpt,
        Json.get?, Json.idx?, lookupMember]
  · constructor
    · refine ⟨"https://api.openai.com/v1/chat/completions",
        envInterp env.CHATGPT_API_KEY, "gpt-4", ?_⟩
      cases h : net (openaiRequest env systemPrompt userPrompt) <;>
        (simp only [callAI]; rw [h]; simp [openaiRequest, chatMessages])
    · intro t restChoices m1 m2 mData hnet
      simp [callAI, hnet, chatResponseResult, extractChoiceContent, jsOpt,
        Json.get?, Json.idx?, lookupMember]
  · constructor
    · refine ⟨"https://api.deepseek.com/v1/chat/completions",
        envInterp env.DEEPSEEK_API_KEY, "deepseek-chat", ?_⟩
      cases h : net (deepseekRequest env systemPrompt userPrompt) <;>
        (simp only [callAI]; rw [h]; simp [deepseekRequest, chatMessages])
    · intro t restChoices m1 m2 mData hnet
      simp [callAI, hnet, chatResponseResult, extractChoiceContent, jsOpt,
        Json.get?, Json.idx?, lookupMember]

/-- C6 witness: a groq call over a network resolving the canonical chat
envelope carrying "hi". -/
theorem c6_witness :
    ("groq" : String) ∈ chatProviders ∧
    (callAI netChatHi envFull "groq" "s" "u").result = .ok (some (.str "hi")) :=
  ⟨by decide,
    (c6_chat_request_shape_and_extraction netChatHi envFull "groq" "s" "u"
      (by decide)).2 "hi" [] [] [] [] (fun _ => rfl)⟩

/-- C7: the gemini branch issues exactly one request whose single content
part is the system and user prompts joined by a blank line when the system
prompt is non-empty (just the user prompt otherwise), and extracts the
returned text from the nested candidates / content / parts envelope. -/
theorem c7_gemini_prompt_concatenation_and_extraction (net : Net) (env : Env)
    (systemPrompt userPrompt : String) :
    (callAI net env "gemini" systemPrompt userPrompt).requests =
      [geminiRequest env systemPrompt userPrompt] ∧
    (geminiRequest env systemPrompt userPrompt).body =
      .gemini [[if systemPrompt ≠ "" then systemPrompt ++ "\n\n" ++ userPrompt
                else userPrompt]] ∧
    (∀ (t : String) (restCand restParts : List Json)
        (m1 m2 m3 mData : List (String × Json)),
      (∀ r, net r = .ok (.obj (("candidates",
          .arr (.obj (("content", .obj (("parts",
            .arr (.obj (("text", .str t) :: m3) :: restParts)) :: m2)) :: m1)
            :: restCand)) :: mData))) →
      (callAI net env "gemini" systemPrompt userPrompt).result =
        .ok (some (.str t))) := by
  refine ⟨?_, ?_, ?_⟩
  · cases h : net (geminiRequest env systemPrompt userPrompt) <;>
      (simp only [callAI]; rw [h]; simp)
  · simp [geminiRequest, geminiFullPrompt]
  · intro t restCand restParts m1 m2 m3 mData hnet
    simp [callAI, hnet, geminiResponseResult, geminiResultValue,
      extractGeminiText, jsOpt, Json.get?, Json.idx?, lookupMember]
    rcases Decidable.em (t = "") with h | h
    · subst h; simp [Json.truthy]
    · simp [Json.truthy, h]

/-- C7 witness: a gemini call over a network resolving the canonical
candidates envelope carrying "hi", with both prompts non-empty. -/
theorem c7_witness :
    (callAI netGeminiHi envFull "gemini" "s" "u").result =
      .ok (some (.str "hi")) ∧
    (geminiRequest envFull "s" "u").body = .gemini [["s\n\nu"]] :=
  ⟨(c7_gemini_prompt_concatenation_and_extraction netGeminiHi envFull
      "s" "u").2.2 "hi" [] [] [] [] [] [] (fun _ => rfl),
    by simpa using
      (c7_gemini_prompt_concatenation_and_extraction netGeminiHi envFull
        "s" "u").2.1⟩

/-- Both match arms of the groq branch record the same single request. -/
theorem callAI_groq_requests (net : Net) (env : Env) (sp up : String) :
    (callAI net env "groq" sp up).requests = [groqRequest env sp up] := by
  cases h : net (groqRequest env sp up) <;> (simp only [callAI]; rw [h]; simp)

/-- Both match arms of the openai branch record the same single request. -/
theorem callAI_openai_requests (net : Net) (env : Env) (sp up : String) :
    (callAI net env "openai" sp up).requests = [openaiRequest env sp up] := by
  cases h : net (openaiRequest env sp up) <;> (simp only [callAI]; rw [h]; simp)

/-- Both match arms of the deepseek branch record the same single request. -/
theorem callAI_deepseek_requests (net : Net) (env : Env) (sp up : String) :
    (callAI net env "deepseek" sp up).requests = [deepseekRequest env sp up] := by
  cases h : net (deepseekRequest env sp up) <;> (simp only [callAI]; rw [h]; simp)

/-- Both match arms of the gemini branch record the same single request. -/
theorem callAI_gemini_requests (net : Net) (env : Env) (sp up : String) :
    (callAI net env "gemini" sp up).requests = [geminiRequest env sp up] := by
  cases h : net (geminiRequest env sp up) <;> (simp only [callAI]; rw [h]; simp)

/-- The enhance handler issues exactly the requests of its provider call. -/
theorem handleTextEnhancement_requests (net : Net) (env : Env)
    (req : EnhanceRequest) :
    (handleTextEnhancement net env req).requests =
      (callAI net env (req.provider.getD (serverStartup env).defaultProvider)
        enhanceSystemPrompt req.text).requests := by
  cases h : (callAI net env (req.provider.getD (serverStartup env).defaultProvider)
      enhanceSystemPrompt req.text).result <;>
    simp [handleTextEnhancement, h]

/-- C8 counterexample: with no environment variable set, the default
provider is groq and its credential is absent, yet startup succeeds (it is
a total computation of port and default provider, with no error path), an
enhance request is still served — reaching the network with the literal
header "Bearer undefined" — and only that provider call fails.  This
refutes the claim of a ConfigurationError at startup before any request is
served. -/
theorem c8_counterexample_no_startup_failure_on_missing_credential :
    serverStartup envUnset = ⟨"3001", "groq"⟩ ∧
    (handleTextEnhancement netDown envUnset ⟨"hi", none⟩).requests =
      [groqRequest envUnset enhanceSystemPrompt "hi"] ∧
    (groqRequest envUnset enhanceSystemPrompt "hi").headers =
      [("Authorization", "Bearer undefined"),
       ("Content-Type", "application/json")] ∧
    (handleTextEnhancement netDown envUnset ⟨"hi", none⟩).response.status = 500 :=
  ⟨rfl, rfl, rfl, rfl⟩

/-- C8 (amended): startup performs no credential validation — it only
computes the port and the default provider and cannot fail — so whenever
the default provider is groq and its credential is unset, an enhance
request with no explicit provider is still served, issues exactly one
outbound call, and that call's Authorization header carries the literal
string "Bearer undefined"; failure can occur only at the provider call
itself, not at startup. -/
theorem c8_amended_missing_credential_reaches_network (net : Net) (env : Env)
    (text : String) (hkey : env.GROQ_API_KEY = none)
    (hdef : jsOrDefault env.AI_PROVIDER "groq" = "groq") :
    serverStartup env = ⟨jsOrDefault env.PORT "3001", "groq"⟩ ∧
    (handleTextEnhancement net env ⟨text, none⟩).requests =
      [groqRequest env enhanceSystemPrompt text] ∧
    (groqRequest env enhanceSystemPrompt text).headers =
      [("Authorization", "Bearer undefined"),
       ("Content-Type", "application/json")] := by
  refine ⟨?_, ?_, ?_⟩
  · simp [serverStartup, hdef]
  · rw [handleTextEnhancement_requests]
    simp [serverStartup, hdef, callAI_groq_requests]
  · simp [groqRequest, envInterp, hkey]

/-- C8 witness: the empty environment at a concrete network and input. -/
theorem c8_witness :
    (envUnset.GROQ_API_KEY = none ∧
      jsOrDefault envUnset.AI_PROVIDER "groq" = "groq") ∧
    (serverStartup envUnset = ⟨jsOrDefault envUnset.PORT "3001", "groq"⟩ ∧
      (handleTextEnhancement netDown envUnset ⟨"hello", none⟩).requests =
        [groqRequest envUnset enhanceSystemPrompt "hello"] ∧
      (groqRequest envUnset enhanceSystemPrompt "hello").headers =
        [("Authorization", "Bearer undefined"),
         ("Content-Type", "application/json")]) :=
  ⟨⟨rfl, rfl⟩,
    c8_amended_missing_credential_reaches_network netDown envUnset "hello"
      rfl rfl⟩

/-- Evaluating the chat-style return expression on any non-null resolved
body reduces to the optional-chain extraction. -/
theorem chatResponseResult_of_ne_null (data : Json) (h : data ≠ .null) :
    chatResponseResult data = .ok (extractChoiceContent data) := by
  cases data with
  | null => exact absurd rfl h
  | bool b => rfl
  | num n => rfl
  | str s => rfl
  | arr elems => rfl
  | obj members => rfl

/-- C9: an enhance request with empty text and any known provider is
well-defined: the handler always completes with either the 200 success
shape or the 500 failure shape (never an unhandled exception), and every
chat-style request body it builds is exactly the fixed enhancement system
prompt followed by one user turn whose content is the empty string. -/
theorem c9_enhance_empty_text_completes (net : Net) (env : Env)
    (provider : String) (hp : provider ∈ knownProviders) :
    (((handleTextEnhancement net env ⟨"", some provider⟩).response.status = 200 ∧
       (handleTextEnhancement net env
           ⟨"", some provider⟩).response.body.get? "success" =
         some (.bool true)) ∨
     ((handleTextEnhancement net env ⟨"", some provider⟩).response.status = 500 ∧
       (handleTextEnhancement net env ⟨"", some provider⟩).response.body =
         failureBody "Failed to enhance text")) ∧
    (∀ r ∈ (handleTextEnhancement net env ⟨"", some provider⟩).requests,
      ∀ b, r.body = .chat b →
        b.messages = [⟨"system", enhanceSystemPrompt⟩, ⟨"user", ""⟩]) := by
  have hmsgs : chatMessages enhanceSystemPrompt "" =
      [⟨"system", enhanceSystemPrompt⟩, ⟨"user", ""⟩] := by
    simp [chatMessages, enhanceSystemPrompt]
  simp [knownProviders] at hp
  have hshape : ((handleTextEnhancement net env
        ⟨"", some provider⟩).response.status = 200 ∧
       (handleTextEnhancement net env
           ⟨"", some provider⟩).response.body.get? "success" =
         some (.bool true)) ∨
      ((handleTextEnhancement net env ⟨"", some provider⟩).response.status = 500 ∧
       (handleTextEnhancement net env ⟨"", some provider⟩).response.body =
         failureBody "Failed to enhance text") := by
    cases h : (callAI net env provider enhanceSystemPrompt "").result with
    | error e => right; simp [handleTextEnhancement, h]
    | ok v =>
      left
      cases v with
      | none => simp [handleTextEnhancement, h, successBody, Json.get?, lookupMember]
      | some j => simp [handleTextEnhancement, h, successBody, Json.get?, lookupMember]
  refine ⟨hshape, ?_⟩
  rcases hp with h | h | h | h <;> subst h
  · have hreqs : (handleTextEnhancement net env ⟨"", some "groq"⟩).requests =
        [groqRequest env enhanceSystemPrompt ""] := by
      rw [handleTextEnhancement_requests]
      simp [callAI_groq_requests]
    rw [hreqs]
    intro r hr b hb
    simp at hr
    subst hr
    simp [groqRequest] at hb
    rw [← hb, hmsgs]
  · have hreqs : (handleTextEnhancement net env ⟨"", some "openai"⟩).requests =
        [openaiRequest env enhanceSystemPrompt ""] := by
      rw [handleTextEnhancement_requests]
      simp [callAI_openai_requests]
    rw [hreqs]
    intro r hr b hb
    simp at hr
    subst hr
    simp [openaiRequest] at hb
    rw [← hb, hmsgs]
  · have hreqs : (handleTextEnhancement net env ⟨"", some "deepseek"⟩).requests =
        [deepseekRequest env enhanceSystemPrompt ""] := by
      rw [handleTextEnhancement_requests]
      simp [callAI_deepseek_requests]
    rw [hreqs]
    intro r hr b hb
    simp at hr
    subst hr
    simp [deepseekRequest] at hb
    rw [← hb, hmsgs]
  · have hreqs : (handleTextEnhancement net env ⟨"", some "gemini"⟩).requests =
        [geminiRequest env enhanceSystemPrompt ""] := by
      rw [handleTextEnhancement_requests]
      simp [callAI_gemini_requests]
    rw [hreqs]
    intro r hr b hb
    simp at hr
    subst hr
    simp [geminiRequest] at hb

/-- C9 witness: empty text to the groq provider over a failing network. -/
theorem c9_witness :
    ("groq" : String) ∈ knownProviders ∧
    ((((handleTextEnhancement netDown envFull
          ⟨"", some "groq"⟩).response.status = 200 ∧
        (handleTextEnhancement netDown envFull
            ⟨"", some "groq"⟩).response.body.get? "success" =
          some (.bool true)) ∨
      ((handleTextEnhancement netDown envFull
          ⟨"", some "groq"⟩).response.status = 500 ∧
        (handleTextEnhancement netDown envFull ⟨"", some "groq"⟩).response.body =
          failureBody "Failed to enhance text")) ∧
     (∀ r ∈ (handleTextEnhancement netDown envFull ⟨"", some "groq"⟩).requests,
       ∀ b, r.body = .chat b →
         b.messages = [⟨"system", enhanceSystemPrompt⟩, ⟨"user", ""⟩])) :=
  ⟨by decide, c9_enhance_empty_text_completes netDown envFull "groq" (by decide)⟩

/-- C10: for a chat-style provider, a resolved (2xx) response body that is
not null and yields no first-choice message content makes `callAI` resolve
with `undefined`, so the text-enhancement endpoint answers 200 with a body
holding only success true — no enhancedText field and no 500. -/
theorem c10_missing_content_gives_200_without_field (net : Net) (env : Env)
    (provider text : String) (data : Json)
    (hp : provider ∈ chatProviders)
    (hnn : data ≠ .null)
    (hex : extractChoiceContent data = none)
    (hnet : ∀ r, net r = .ok data) :
    (handleTextEnhancement net env ⟨text, some provider⟩).response =
      ⟨200, .obj [("success", .bool true)]⟩ := by
  simp [chatProviders] at hp
  rcases hp with h | h | h <;> subst h <;>
    simp [handleTextEnhancement, callAI, hnet,
      chatResponseResult_of_ne_null data hnn, hex, successBody]

/-- C10 witness: groq resolving the empty-object body at a concrete
request. -/
theorem c10_witness :
    (("groq" : String) ∈ chatProviders ∧
      extractChoiceContent (.obj []) = none) ∧
    (handleTextEnhancement netEmptyObj envFull ⟨"hello", some "groq"⟩).response =
      ⟨200, .obj [("success", .bool true)]⟩ :=
  ⟨⟨by decide, rfl⟩,
    c10_missing_content_gives_200_without_field netEmptyObj envFull "groq"
      "hello" (.obj []) (by decide) nofun rfl (fun _ => rfl)⟩
